import Mathlib

/-!
# Verification of the reference-counted smart-pointer library (src/smart_pointers.h)

Shallow embedding of the control-block-based reference-counting mechanism:
`BaseControlBlock` with its two counters, the two control-block variants
(`ControlBlockRegular`, here the `regular` variant, and `ControlBlockMakeShared`,
here the `combined` variant), the `SharedPtr` and `WeakPtr` handle classes, and
the factory functions `allocateShared` / `makeShared`.

All the claims concern handles referencing a single value, hence a single
control block.  The world is therefore the state of that one block
(`ControlBlock`), and a handle's `cb` field — a `BaseControlBlock*` in the
source — is modelled as a `Bool`: `true` when the handle points at the block,
`false` for `nullptr`.  Raw value pointers (`T*`) are modelled as addresses
`Option Nat` into an ambient heap `Nat → Int` (the payload type `T` is fixed
to `Int`); `none` is `nullptr`.  Every operation is translated line by line
from the C++ member it is named after; destructor and assignment operators
additionally report, in an `Ev` record, whether the block's `destroy()` and
`deallocate()` strategies ran during the operation.

On top of the per-operation model, a small state machine (`Sys`, `Op`,
`step`, `run`) executes arbitrary interleavings of handle operations against
one block, tracking the number of live strong and weak handles together with
the cumulative number of `destroy()` and `deallocate()` invocations, for the
whole-trace claims.
-/

namespace SmartPointers

/-- The two control-block variants of the source. `regular` is
`ControlBlockRegular` (holds a raw value pointer, lines 25-49); `combined` is
`ControlBlockMakeShared` (embeds the value inline, lines 51-77). -/
inductive CBVariant where
  | regular (ptr : Option Nat)
  | combined (value : Int)
deriving DecidableEq, Repr

/-- State of the single control block: its variant payload and the two
counters of `BaseControlBlock` (lines 16-23). -/
structure ControlBlock where
  variant : CBVariant
  shared_count : Nat
  weak_count : Nat
deriving DecidableEq, Repr

/-- Effect of `ControlBlockRegular::destroy` (lines 34-37: `deleter(ptr); ptr
= nullptr;`) and `ControlBlockMakeShared::destroy` (lines 60-67: destroys the
embedded value in place, storage untouched) on the variant payload. -/
def CBVariant.destroyValue : CBVariant → CBVariant
  | .regular _ => .regular none
  | .combined v => .combined v

/-- Events observed during one handle operation: whether the control block's
`destroy()` and `deallocate()` strategies were invoked. -/
structure Ev where
  destroyed : Bool
  deallocated : Bool
deriving DecidableEq, Repr

/-- No strategy invoked. -/
def noEv : Ev := ⟨false, false⟩

/-- `SharedPtr<T>` (lines 79-238): raw value pointer `ptr` and control-block
pointer `cb` (`true` = points at the block, `false` = `nullptr`). -/
structure SharedPtr where
  ptr : Option Nat
  cb : Bool
deriving DecidableEq, Repr

/-- `WeakPtr<T>` (lines 240-350): same two fields as `SharedPtr`. -/
structure WeakPtr where
  ptr : Option Nat
  cb : Bool
deriving DecidableEq, Repr

/-- A default-constructed (null) `SharedPtr` (line 117). -/
def SharedPtr.nullPtr : SharedPtr := ⟨none, false⟩

/-- A default-constructed (null) `WeakPtr` (line 258). -/
def WeakPtr.nullPtr : WeakPtr := ⟨none, false⟩

/-- `SharedPtr::use_count` (lines 191-196): 0 when `cb == nullptr`, else the
block's `shared_count`. -/
def SharedPtr.use_count (s : SharedPtr) (w : ControlBlock) : Nat :=
  if s.cb = false then 0 else w.shared_count

/-- `WeakPtr::use_count` (lines 323-328): 0 when `cb == nullptr`, else the
block's `shared_count`. -/
def WeakPtr.use_count (wk : WeakPtr) (w : ControlBlock) : Nat :=
  if wk.cb = false then 0 else w.shared_count

/-- `WeakPtr::expired` (lines 330-332): `use_count() == 0`. -/
def WeakPtr.expired (wk : WeakPtr) (w : ControlBlock) : Bool :=
  wk.use_count w == 0

/-- `SharedPtr` copy constructor (lines 138-142): copies both fields and
increments `shared_count` when the source's `cb` is non-null. -/
def SharedPtr.copyCtor (other : SharedPtr) (w : ControlBlock) :
    SharedPtr × ControlBlock :=
  if other.cb then
    (⟨other.ptr, other.cb⟩, { w with shared_count := w.shared_count + 1 })
  else (⟨other.ptr, other.cb⟩, w)

/-- `SharedPtr` move constructor (lines 151-154): steals both fields and
nulls the source; no counter is touched.  Returns (new handle, moved-from
source). -/
def SharedPtr.moveCtor (other : SharedPtr) : SharedPtr × SharedPtr :=
  (⟨other.ptr, other.cb⟩, ⟨none, false⟩)

/-- `SharedPtr` destructor (lines 226-237): no-op when `cb == nullptr`;
otherwise decrement `shared_count`; at zero run `destroy()`, and when
`weak_count` is also zero run `deallocate()`. -/
def SharedPtr.dtor (s : SharedPtr) (w : ControlBlock) : ControlBlock × Ev :=
  if s.cb = false then (w, noEv)
  else
    let sc := w.shared_count - 1
    if sc = 0 then
      let w1 : ControlBlock := ⟨w.variant.destroyValue, sc, w.weak_count⟩
      if w.weak_count = 0 then (w1, ⟨true, true⟩) else (w1, ⟨true, false⟩)
    else ({ w with shared_count := sc }, noEv)

/-- `SharedPtr::operator=(const SharedPtr&)` (lines 162-169): early return on
self-assignment (`this == &other`, the `sameObject` flag), otherwise
copy-and-swap; the temporary's destructor then releases the destination's
previous state.  Returns (destination after, block after, events). -/
def SharedPtr.assignCopy (dst src : SharedPtr) (sameObject : Bool)
    (w : ControlBlock) : SharedPtr × ControlBlock × Ev :=
  if sameObject then (dst, w, noEv)
  else
    let r := SharedPtr.copyCtor src w
    let dst2 := r.1
    let c2 := dst
    let r2 := SharedPtr.dtor c2 r.2
    (dst2, r2.1, r2.2)

/-- `SharedPtr::operator=(SharedPtr&&)` (lines 178-182) for distinct
objects: move-construct a temporary from the source (nulling it), swap it
into the destination, destroy the temporary (the destination's old state).
Returns (destination after, source after, block after, events). -/
def SharedPtr.assignMove (dst src : SharedPtr) (w : ControlBlock) :
    SharedPtr × SharedPtr × ControlBlock × Ev :=
  let r := SharedPtr.moveCtor src
  let dst2 := r.1
  let c2 := dst
  let r2 := SharedPtr.dtor c2 w
  (dst2, r.2, r2.1, r2.2)

/-- `s = std::move(s)` (lines 178-182 with `other` aliasing `*this`): the
move construction of the temporary nulls `*this` while the temporary takes
its fields; the swap hands them back; the temporary, now null, is destroyed
as a no-op. -/
def SharedPtr.selfAssignMove (s : SharedPtr) (w : ControlBlock) :
    SharedPtr × ControlBlock × Ev :=
  let r := SharedPtr.moveCtor s
  let s2 := r.1
  let c2 := r.2
  let r2 := SharedPtr.dtor c2 w
  (s2, r2.1, r2.2)

/-- `WeakPtr` copy constructor (lines 273-277): copies both fields and
increments `weak_count` when the source's `cb` is non-null. -/
def WeakPtr.copyCtor (other : WeakPtr) (w : ControlBlock) :
    WeakPtr × ControlBlock :=
  if other.cb then
    (⟨other.ptr, other.cb⟩, { w with weak_count := w.weak_count + 1 })
  else (⟨other.ptr, other.cb⟩, w)

/-- `WeakPtr(const SharedPtr&)` (lines 260-264): copies the fields and
increments `weak_count` when non-null. -/
def WeakPtr.fromShared (s : SharedPtr) (w : ControlBlock) :
    WeakPtr × ControlBlock :=
  if s.cb then
    (⟨s.ptr, s.cb⟩, { w with weak_count := w.weak_count + 1 })
  else (⟨s.ptr, s.cb⟩, w)

/-- `WeakPtr` move constructor (lines 286-289): steals the fields and nulls
the source; no counter is touched. -/
def WeakPtr.moveCtor (other : WeakPtr) : WeakPtr × WeakPtr :=
  (⟨other.ptr, other.cb⟩, ⟨none, false⟩)

/-- `WeakPtr` destructor (lines 341-349): no-op when `cb == nullptr`;
otherwise decrement `weak_count`; when it reaches zero with `shared_count`
already zero, run `deallocate()`. -/
def WeakPtr.dtor (wk : WeakPtr) (w : ControlBlock) : ControlBlock × Ev :=
  if wk.cb = false then (w, noEv)
  else
    let wc := w.weak_count - 1
    if wc = 0 ∧ w.shared_count = 0 then
      ({ w with weak_count := wc }, ⟨false, true⟩)
    else ({ w with weak_count := wc }, noEv)

/-- `WeakPtr::operator=(const WeakPtr&)` (lines 297-301): copy-and-swap with
no self-assignment check; the temporary's destructor releases the
destination's previous state. -/
def WeakPtr.assignCopy (dst src : WeakPtr) (w : ControlBlock) :
    WeakPtr × ControlBlock × Ev :=
  let r := WeakPtr.copyCtor src w
  let dst2 := r.1
  let c2 := dst
  let r2 := WeakPtr.dtor c2 r.2
  (dst2, r2.1, r2.2)

/-- `WeakPtr::operator=(WeakPtr&&)` (lines 310-314) for distinct objects. -/
def WeakPtr.assignMove (dst src : WeakPtr) (w : ControlBlock) :
    WeakPtr × WeakPtr × ControlBlock × Ev :=
  let r := WeakPtr.moveCtor src
  let dst2 := r.1
  let c2 := dst
  let r2 := WeakPtr.dtor c2 w
  (dst2, r.2, r2.1, r2.2)

/-- `wk = std::move(wk)` (lines 310-314 with `other` aliasing `*this`). -/
def WeakPtr.selfAssignMove (wk : WeakPtr) (w : ControlBlock) :
    WeakPtr × ControlBlock × Ev :=
  let r := WeakPtr.moveCtor wk
  let wk2 := r.1
  let c2 := r.2
  let r2 := WeakPtr.dtor c2 w
  (wk2, r2.1, r2.2)

/-- `SharedPtr(const WeakPtr&)` (lines 89-93, private upgrade constructor):
copies the fields and increments `shared_count` when non-null. -/
def SharedPtr.fromWeak (wk : WeakPtr) (w : ControlBlock) :
    SharedPtr × ControlBlock :=
  if wk.cb then
    (⟨wk.ptr, wk.cb⟩, { w with shared_count := w.shared_count + 1 })
  else (⟨wk.ptr, wk.cb⟩, w)

/-- `WeakPtr::lock` (lines 334-339): a null `SharedPtr` when expired,
otherwise `SharedPtr(*this)`. -/
def WeakPtr.lock (wk : WeakPtr) (w : ControlBlock) :
    SharedPtr × ControlBlock :=
  if wk.expired w then (⟨none, false⟩, w)
  else SharedPtr.fromWeak wk w

/-- What `operator->` (lines 215-220) returns: the stored raw pointer when it
is non-null, else the address of the value embedded in the combined block
(the `static_cast<ControlBlockMakeShared<T>*>(cb)` on line 219 is only
meaningful when the block really is the combined variant; a null `cb` or a
regular block makes the access undefined, modelled as `none`). -/
inductive PtrTarget where
  | heapAddr (a : Nat)
  | embedded
deriving DecidableEq, Repr

/-- `SharedPtr::operator->` (lines 215-220). -/
def SharedPtr.arrow (s : SharedPtr) (w : ControlBlock) : Option PtrTarget :=
  match s.ptr with
  | some a => some (.heapAddr a)
  | none =>
    if s.cb then
      match w.variant with
      | .combined _ => some .embedded
      | .regular _ => none
    else none

/-- Reading through a pointer target: a heap address reads the ambient heap,
`embedded` reads the value stored inline in the combined block. -/
def readTarget (heap : Nat → Int) (w : ControlBlock) : PtrTarget → Option Int
  | .heapAddr a => some (heap a)
  | .embedded =>
    match w.variant with
    | .combined v => some v
    | .regular _ => none

/-- `SharedPtr::operator*` (lines 208-213): `*ptr` when the stored pointer is
non-null, else the value embedded in the combined block; `none` marks the
undefined accesses (null handle, or the line-212 cast applied to a regular
block). -/
def SharedPtr.star (heap : Nat → Int) (s : SharedPtr) (w : ControlBlock) :
    Option Int :=
  match s.ptr with
  | some a => some (heap a)
  | none =>
    if s.cb then
      match w.variant with
      | .combined v => some v
      | .regular _ => none
    else none

/-- `SharedPtr::get` (lines 222-224): returns the `ptr` field, whatever the
backing variant. -/
def SharedPtr.get (s : SharedPtr) : Option Nat := s.ptr

/-- `SharedPtr(U* ptr, Deleter, Alloc)` (lines 119-136).  The member `ptr` is
initialised first; then the control block is allocated — when the allocator
fails (`allocFails`) the exception propagates out of the constructor before
the block is placement-constructed, so no handle exists and the deleter was
never invoked on the raw pointer.  On success the block is constructed with
the pointer, counts start at `shared_count = 1`.  Returns (result, number of
deleter invocations on the raw pointer during construction). -/
def SharedPtr.fromRaw (a : Nat) (allocFails : Bool) :
    Except Unit (SharedPtr × ControlBlock) × Nat :=
  if allocFails then (Except.error (), 0)
  else (Except.ok (⟨some a, true⟩, ⟨.regular (some a), 1, 0⟩), 0)

/-- Bookkeeping of the factory path: control-block allocations and
deallocations performed inside `allocateShared`. -/
structure FactoryLedger where
  blockAllocs : Nat
  blockDeallocs : Nat
deriving DecidableEq, Repr

/-- `allocateShared` (lines 352-363), translated statement by statement:
`allocate(sharedAlloc, 1)` obtains the block (one allocation recorded); then
`construct(sharedAlloc, pt, alloc, args...)` builds the value in place — when
the value constructor throws (`ctorFails`) the exception propagates AND THE
FUNCTION PERFORMS NO DEALLOCATION (there is no try/catch in lines 352-363),
so the ledger keeps `blockDeallocs = 0`; otherwise the private
`SharedPtr(ControlBlockMakeShared*)` constructor (lines 82-87) produces the
handle with `ptr = nullptr` and `shared_count` bumped to 1. -/
def allocateShared (v : Int) (ctorFails : Bool) :
    Except Unit (SharedPtr × ControlBlock) × FactoryLedger :=
  if ctorFails then (Except.error (), ⟨1, 0⟩)
  else (Except.ok (⟨none, true⟩, ⟨.combined v, 1, 0⟩), ⟨1, 0⟩)

/-- `makeShared` (lines 365-368): `allocateShared` with the default
allocator. -/
def makeShared (v : Int) (ctorFails : Bool) :
    Except Unit (SharedPtr × ControlBlock) × FactoryLedger :=
  allocateShared v ctorFails

/-!
## Trace machine

Arbitrary interleavings of handle operations against one control block.
`strong` and `weak` count the live handles of each kind currently attached
to the block; `shared_count` / `weak_count` are the block's own counters;
`destroyCount` / `deallocCount` accumulate how many times the block's
`destroy()` and `deallocate()` strategies have run across the trace.
-/

/-- Trace-machine state: the block's counters, the numbers of live attached
strong and weak handles, and the cumulative strategy invocations. -/
structure Sys where
  shared_count : Nat
  weak_count : Nat
  strong : Nat
  weak : Nat
  destroyCount : Nat
  deallocCount : Nat
deriving DecidableEq, Repr

/-- The handle operations a client may interleave.  Only operations with a
live handle to act on are enabled: `copyStrong` copies one of the live
strong handles (lines 138-142), `moveStrong` move-constructs from one
(lines 151-154, no counter change), `dtorStrong` destroys one (lines
226-237), `resetStrong` calls `reset()` on one (lines 198-200: swap with a
default-constructed temporary whose destructor then runs lines 226-237);
`copyWeak` creates a new weak handle from any live handle (lines 260-264 or
273-277), `moveWeak` move-constructs a weak handle (lines 286-289),
`dtorWeak` destroys one (lines 341-349), `lockWeak` calls `lock()` on one
(lines 334-339). -/
inductive Op where
  | copyStrong
  | moveStrong
  | dtorStrong
  | resetStrong
  | copyWeak
  | moveWeak
  | dtorWeak
  | lockWeak
deriving DecidableEq, Repr

/-- Effect of `SharedPtr::~SharedPtr` (lines 226-237) on the machine state,
given a live attached strong handle: decrement `shared_count`; at zero run
`destroy()`, and when `weak_count` is also zero run `deallocate()`. -/
def dtorStrongEffect (σ : Sys) : Sys :=
  let sc := σ.shared_count - 1
  if sc = 0 then
    if σ.weak_count = 0 then
      { σ with shared_count := sc, strong := σ.strong - 1,
               destroyCount := σ.destroyCount + 1,
               deallocCount := σ.deallocCount + 1 }
    else
      { σ with shared_count := sc, strong := σ.strong - 1,
               destroyCount := σ.destroyCount + 1 }
  else { σ with shared_count := sc, strong := σ.strong - 1 }

/-- Effect of `WeakPtr::~WeakPtr` (lines 341-349) on the machine state, given
a live attached weak handle: decrement `weak_count`; when it reaches zero
with `shared_count` already zero, run `deallocate()`. -/
def dtorWeakEffect (σ : Sys) : Sys :=
  let wc := σ.weak_count - 1
  if wc = 0 ∧ σ.shared_count = 0 then
    { σ with weak_count := wc, weak := σ.weak - 1,
             deallocCount := σ.deallocCount + 1 }
  else { σ with weak_count := wc, weak := σ.weak - 1 }

/-- One step of the trace machine; `none` when the operation has no live
handle to act on. -/
def step (σ : Sys) : Op → Option Sys
  | .copyStrong =>
    if σ.strong = 0 then none
    else some { σ with shared_count := σ.shared_count + 1,
                       strong := σ.strong + 1 }
  | .moveStrong => if σ.strong = 0 then none else some σ
  | .dtorStrong => if σ.strong = 0 then none else some (dtorStrongEffect σ)
  | .resetStrong => if σ.strong = 0 then none else some (dtorStrongEffect σ)
  | .copyWeak =>
    if σ.strong = 0 ∧ σ.weak = 0 then none
    else some { σ with weak_count := σ.weak_count + 1, weak := σ.weak + 1 }
  | .moveWeak => if σ.weak = 0 then none else some σ
  | .dtorWeak => if σ.weak = 0 then none else some (dtorWeakEffect σ)
  | .lockWeak =>
    if σ.weak = 0 then none
    else if σ.shared_count = 0 then some σ
    else some { σ with shared_count := σ.shared_count + 1,
                       strong := σ.strong + 1 }

/-- The state right after the value's first strong handle is created (raw
pointer constructor, lines 119-136, or the factory, lines 352-363): one live
strong handle, `shared_count = 1`, no weak handles, no strategy has run. -/
def Sys.start : Sys := ⟨1, 0, 1, 0, 0, 0⟩

/-- Run a list of operations from a state. -/
def run (σ : Sys) : List Op → Option Sys
  | [] => some σ
  | op :: ops =>
    match step σ op with
    | none => none
    | some σ2 => run σ2 ops

/-- Reachability invariant: the block's counters agree with the numbers of
live handles, `destroy()` has run exactly once as soon as (and only when) no
strong handle remains, and `deallocate()` exactly once as soon as (and only
when) no handle of either kind remains. -/
def SysInv (σ : Sys) : Prop :=
  σ.shared_count = σ.strong ∧ σ.weak_count = σ.weak ∧
  (σ.strong = 0 → σ.destroyCount = 1) ∧
  (0 < σ.strong → σ.destroyCount = 0) ∧
  (σ.strong = 0 ∧ σ.weak = 0 → σ.deallocCount = 1) ∧
  (0 < σ.strong ∨ 0 < σ.weak → σ.deallocCount = 0)

theorem start_inv : SysInv Sys.start := by
  simp [SysInv, Sys.start]

theorem step_inv {σ σ2 : Sys} {op : Op} (h : SysInv σ)
    (hs : step σ op = some σ2) : SysInv σ2 := by
  obtain ⟨h1, h2, h3, h4, h5, h6⟩ := h
  cases op <;>
    simp only [step, dtorStrongEffect, dtorWeakEffect] at hs <;>
    split at hs <;>
    first
      | exact Option.noConfusion hs
      | ((try split at hs) <;> (try split at hs) <;>
         injection hs with hs <;> subst hs <;>
         simp only [SysInv] <;> omega)

theorem run_inv : ∀ (ops : List Op) {σ σ2 : Sys}, SysInv σ →
    run σ ops = some σ2 → SysInv σ2 := by
  intro ops
  induction ops with
  | nil => intro σ σ2 h hr; simp only [run] at hr; cases hr; exact h
  | cons op rest ih =>
    intro σ σ2 h hr
    simp only [run] at hr
    cases hstep : step σ op with
    | none => rw [hstep] at hr; cases hr
    | some σ1 =>
      rw [hstep] at hr
      exact ih (step_inv h hstep) hr

/-!
## Claims C1 and C2: whole-trace lifecycle invariants
-/

/-- Claim C1: over every sequence of copy, move, reset, and destroy
operations on Strong Handles referencing one value, interleaved arbitrarily
with Weak Handle operations, the control block's `destroy()` has run exactly
once when no Strong Handle is left and zero times otherwise, and the only
operation that makes it run is the one destroying or resetting the last
Strong Handle. -/
theorem claim_C1 (ops : List Op) (σ : Sys) (h : run Sys.start ops = some σ) :
    σ.destroyCount = (if σ.strong = 0 then 1 else 0) ∧
    ∀ (op : Op) (σ2 : Sys), step σ op = some σ2 →
      σ2.destroyCount = σ.destroyCount +
        (if (op = Op.dtorStrong ∨ op = Op.resetStrong) ∧ σ.strong = 1
         then 1 else 0) := by
  have hinv := run_inv ops start_inv h
  obtain ⟨h1, h2, h3, h4, h5, h6⟩ := hinv
  constructor
  · split_ifs <;> omega
  · intro op σ2 hstep
    cases op <;>
      simp only [step, dtorStrongEffect, dtorWeakEffect] at hstep <;>
      split at hstep <;>
      first
        | exact Option.noConfusion hstep
        | ((try split at hstep) <;> (try split at hstep) <;>
           injection hstep with hstep <;> subst hstep <;>
           simp <;> (try split_ifs) <;> omega)

theorem claim_C1_witness :
    run Sys.start [Op.copyStrong, Op.dtorStrong, Op.dtorStrong] =
      some (Sys.mk 0 0 0 0 1 1) ∧
    (Sys.mk 0 0 0 0 1 1).destroyCount =
      (if (Sys.mk 0 0 0 0 1 1).strong = 0 then 1 else 0) :=
  ⟨by decide,
   (claim_C1 [Op.copyStrong, Op.dtorStrong, Op.dtorStrong]
     (Sys.mk 0 0 0 0 1 1) (by decide)).1⟩

/-- Claim C2: over every sequence of Strong and Weak Handle operations
sharing one control block, the block's `deallocate()` has run exactly once
when no handle of either kind is left and zero times otherwise, and the only
operation that makes it run is the one after which both counts are zero
(whichever kind of handle disappears last). -/
theorem claim_C2 (ops : List Op) (σ : Sys) (h : run Sys.start ops = some σ) :
    σ.deallocCount = (if σ.strong = 0 ∧ σ.weak = 0 then 1 else 0) ∧
    ∀ (op : Op) (σ2 : Sys), step σ op = some σ2 →
      σ2.deallocCount = σ.deallocCount +
        (if σ2.strong = 0 ∧ σ2.weak = 0 then 1 else 0) := by
  have hinv := run_inv ops start_inv h
  obtain ⟨h1, h2, h3, h4, h5, h6⟩ := hinv
  constructor
  · split_ifs <;> omega
  · intro op σ2 hstep
    cases op <;>
      simp only [step, dtorStrongEffect, dtorWeakEffect] at hstep <;>
      split at hstep <;>
      first
        | exact Option.noConfusion hstep
        | ((try split at hstep) <;> (try split at hstep) <;>
           injection hstep with hstep <;> subst hstep <;>
           simp <;> (try split_ifs) <;> omega)

theorem claim_C2_witness :
    run Sys.start [Op.copyWeak, Op.dtorStrong, Op.dtorWeak] =
      some (Sys.mk 0 0 0 0 1 1) ∧
    (Sys.mk 0 0 0 0 1 1).deallocCount =
      (if (Sys.mk 0 0 0 0 1 1).strong = 0 ∧ (Sys.mk 0 0 0 0 1 1).weak = 0
       then 1 else 0) :=
  ⟨by decide,
   (claim_C2 [Op.copyWeak, Op.dtorStrong, Op.dtorWeak]
     (Sys.mk 0 0 0 0 1 1) (by decide)).1⟩

/-!
## Claims C3 to C10: per-operation contracts
-/

/-- Claim C3, the code's actual behaviour at the failing input: when the
in-place value construction inside `allocateShared` fails, the error
propagates with the control-block allocation still outstanding — one block
allocated, zero deallocated — because lines 352-363 contain no cleanup.  The
block allocation is leaked, contradicting the claimed release-before-
propagation. -/
theorem claim_C3_leak (v : Int) :
    (allocateShared v true).1 = Except.error () ∧
    (allocateShared v true).2.blockAllocs = 1 ∧
    (allocateShared v true).2.blockDeallocs = 0 :=
  ⟨rfl, rfl, rfl⟩

/-- Claim C4: `lock()` on an expired (or null) Weak Handle returns a null
Strong Handle with `use_count()` 0; on a live one it returns a handle
sharing the block whose `use_count()` is the prior strong count plus one. -/
theorem claim_C4 (wk : WeakPtr) (w : ControlBlock) :
    (WeakPtr.lock wk w).1.use_count (WeakPtr.lock wk w).2 =
      (if wk.use_count w = 0 then 0 else wk.use_count w + 1) ∧
    (WeakPtr.lock wk w).1.cb = (if wk.use_count w = 0 then false else true) ∧
    (WeakPtr.lock wk w).1.ptr =
      (if wk.use_count w = 0 then none else wk.ptr) ∧
    (WeakPtr.lock wk w).2 =
      (if wk.use_count w = 0 then w
       else { w with shared_count := w.shared_count + 1 }) := by
  rcases wk with ⟨p, c⟩
  rcases w with ⟨va, sc, wc⟩
  cases c
  · simp [WeakPtr.lock, WeakPtr.expired, WeakPtr.use_count,
      SharedPtr.fromWeak, SharedPtr.use_count]
  · by_cases hsc : sc = 0 <;>
      simp [WeakPtr.lock, WeakPtr.expired, WeakPtr.use_count,
        SharedPtr.fromWeak, SharedPtr.use_count, hsc]

/-- Claim C5: a factory-constructed Strong Handle (for any value `v`)
dereferences through `operator*` and `operator->` to the value embedded in
the combined control block, and its `use_count()` is 1 right after
construction. -/
theorem claim_C5 (v : Int) (heap : Nat → Int) :
    (makeShared v false).1 =
      Except.ok (⟨none, true⟩, ⟨CBVariant.combined v, 1, 0⟩) ∧
    SharedPtr.star heap ⟨none, true⟩ ⟨CBVariant.combined v, 1, 0⟩ = some v ∧
    SharedPtr.arrow ⟨none, true⟩ ⟨CBVariant.combined v, 1, 0⟩ =
      some PtrTarget.embedded ∧
    readTarget heap ⟨CBVariant.combined v, 1, 0⟩ PtrTarget.embedded =
      some v ∧
    SharedPtr.use_count ⟨none, true⟩ ⟨CBVariant.combined v, 1, 0⟩ = 1 :=
  ⟨rfl, rfl, rfl, rfl, rfl⟩

/-- Claim C6: `get()` on a handle built from a raw pointer `p` returns `p`;
on a factory-constructed handle it returns the null `ptr` field rather than
the embedded value's address, even though `operator*` on the same handle
still reaches the live embedded value. -/
theorem claim_C6 (p : Nat) (v : Int) (heap : Nat → Int) :
    (SharedPtr.fromRaw p false).1 =
      Except.ok (⟨some p, true⟩, ⟨CBVariant.regular (some p), 1, 0⟩) ∧
    SharedPtr.get ⟨some p, true⟩ = some p ∧
    (makeShared v false).1 =
      Except.ok (⟨none, true⟩, ⟨CBVariant.combined v, 1, 0⟩) ∧
    SharedPtr.get (⟨none, true⟩ : SharedPtr) = none ∧
    SharedPtr.star heap ⟨none, true⟩ ⟨CBVariant.combined v, 1, 0⟩ = some v :=
  ⟨rfl, rfl, rfl, rfl, rfl⟩

/-- Claim C7: constructing a Strong Handle from a raw pointer with an
allocator whose allocation fails propagates the failure, produces no handle,
and never invokes the destruction strategy on the pointed-to value. -/
theorem claim_C7 (p : Nat) :
    (SharedPtr.fromRaw p true).1 = Except.error () ∧
    (SharedPtr.fromRaw p true).2 = 0 :=
  ⟨rfl, rfl⟩

/-- Claim C8: copy-constructing from a non-null Strong Handle with prior
strong count `n` leaves both handles with `use_count()` equal to `n + 1`. -/
theorem claim_C8 (s : SharedPtr) (w : ControlBlock) (hcb : s.cb = true) :
    SharedPtr.use_count s w = w.shared_count ∧
    SharedPtr.use_count s (SharedPtr.copyCtor s w).2 = w.shared_count + 1 ∧
    SharedPtr.use_count (SharedPtr.copyCtor s w).1 (SharedPtr.copyCtor s w).2
      = w.shared_count + 1 := by
  rcases s with ⟨p, c⟩
  simp only at hcb
  subst hcb
  simp [SharedPtr.use_count, SharedPtr.copyCtor]

theorem claim_C8_witness :
    ((⟨some 0, true⟩ : SharedPtr).cb = true) ∧
    (SharedPtr.use_count ⟨some 0, true⟩ ⟨CBVariant.regular (some 0), 1, 0⟩
        = 1 ∧
     SharedPtr.use_count ⟨some 0, true⟩
        (SharedPtr.copyCtor ⟨some 0, true⟩
          ⟨CBVariant.regular (some 0), 1, 0⟩).2 = 2 ∧
     SharedPtr.use_count
        (SharedPtr.copyCtor ⟨some 0, true⟩
          ⟨CBVariant.regular (some 0), 1, 0⟩).1
        (SharedPtr.copyCtor ⟨some 0, true⟩
          ⟨CBVariant.regular (some 0), 1, 0⟩).2 = 2) :=
  ⟨rfl, claim_C8 ⟨some 0, true⟩ ⟨CBVariant.regular (some 0), 1, 0⟩ rfl⟩

/-- Claim C9 as stated is false: copy-assigning FROM a null Strong Handle
into a non-null destination does write a control block — the copy-and-swap
temporary's destructor decrements the destination's old block from 1 to 0
and runs both `destroy()` and `deallocate()` on it. -/
theorem claim_C9_counterexample :
    (SharedPtr.assignCopy ⟨some 5, true⟩ SharedPtr.nullPtr false
        ⟨CBVariant.regular (some 5), 1, 0⟩).2.1.shared_count = 0 ∧
    (ControlBlock.mk (CBVariant.regular (some 5)) 1 0).shared_count = 1 ∧
    (SharedPtr.assignCopy ⟨some 5, true⟩ SharedPtr.nullPtr false
        ⟨CBVariant.regular (some 5), 1, 0⟩).2.2 = Ev.mk true true := by
  decide

/-- Claim C9 amended: copying, move-constructing from, or destroying a null
Strong or Weak Handle never reads or writes any control block (no counter
changes, no `destroy()`/`deallocate()`), and the handle produced by copying
or moving a null handle is itself null with `use_count()` 0; assigning from a
null handle, however, leaves the destination null and releases the
destination's previous ownership exactly as destroying the destination
would. -/
theorem claim_C9 (w : ControlBlock) (dst : SharedPtr) (dstW : WeakPtr) :
    SharedPtr.copyCtor SharedPtr.nullPtr w = (SharedPtr.nullPtr, w) ∧
    SharedPtr.use_count SharedPtr.nullPtr w = 0 ∧
    SharedPtr.moveCtor SharedPtr.nullPtr =
      (SharedPtr.nullPtr, SharedPtr.nullPtr) ∧
    SharedPtr.dtor SharedPtr.nullPtr w = (w, noEv) ∧
    WeakPtr.copyCtor WeakPtr.nullPtr w = (WeakPtr.nullPtr, w) ∧
    WeakPtr.use_count WeakPtr.nullPtr w = 0 ∧
    WeakPtr.moveCtor WeakPtr.nullPtr = (WeakPtr.nullPtr, WeakPtr.nullPtr) ∧
    WeakPtr.dtor WeakPtr.nullPtr w = (w, noEv) ∧
    SharedPtr.assignCopy dst SharedPtr.nullPtr false w =
      (SharedPtr.nullPtr, (SharedPtr.dtor dst w).1,
       (SharedPtr.dtor dst w).2) ∧
    SharedPtr.assignMove dst SharedPtr.nullPtr w =
      (SharedPtr.nullPtr, SharedPtr.nullPtr, (SharedPtr.dtor dst w).1,
       (SharedPtr.dtor dst w).2) ∧
    WeakPtr.assignCopy dstW WeakPtr.nullPtr w =
      (WeakPtr.nullPtr, (WeakPtr.dtor dstW w).1, (WeakPtr.dtor dstW w).2) ∧
    WeakPtr.assignMove dstW WeakPtr.nullPtr w =
      (WeakPtr.nullPtr, WeakPtr.nullPtr, (WeakPtr.dtor dstW w).1,
       (WeakPtr.dtor dstW w).2) := by
  refine ⟨rfl, rfl, rfl, rfl, rfl, rfl, rfl, rfl, ?_, ?_, ?_, ?_⟩ <;>
    simp [SharedPtr.assignCopy, SharedPtr.assignMove, WeakPtr.assignCopy,
      WeakPtr.assignMove, SharedPtr.copyCtor, WeakPtr.copyCtor,
      SharedPtr.moveCtor, WeakPtr.moveCtor, SharedPtr.nullPtr,
      WeakPtr.nullPtr]

/-- Claim C10: copy self-assignment and move self-assignment on Strong and
Weak Handles leave the handle's fields, the control block, and its counts
exactly as they were, invoking neither `destroy()` nor `deallocate()` (the
Weak Handle case relies on the handle-accounting invariant: an attached weak
handle accounts for at least one unit of `weak_count`). -/
theorem claim_C10 (s : SharedPtr) (wk : WeakPtr) (w : ControlBlock)
    (hw : wk.cb = true → 1 ≤ w.weak_count) :
    SharedPtr.assignCopy s s true w = (s, w, noEv) ∧
    SharedPtr.selfAssignMove s w = (s, w, noEv) ∧
    WeakPtr.assignCopy wk wk w = (wk, w, noEv) ∧
    WeakPtr.selfAssignMove wk w = (wk, w, noEv) := by
  refine ⟨rfl, ?_, ?_, ?_⟩
  · simp [SharedPtr.selfAssignMove, SharedPtr.moveCtor, SharedPtr.dtor]
  · rcases wk with ⟨p, c⟩
    cases c
    · simp [WeakPtr.assignCopy, WeakPtr.copyCtor, WeakPtr.dtor]
    · have h1 : 1 ≤ w.weak_count := hw rfl
      have h2 : ¬ w.weak_count = 0 := by omega
      simp [WeakPtr.assignCopy, WeakPtr.copyCtor, WeakPtr.dtor, h2]
  · simp [WeakPtr.selfAssignMove, WeakPtr.moveCtor, WeakPtr.dtor]

theorem claim_C10_witness :
    ((⟨some 0, true⟩ : WeakPtr).cb = true →
      1 ≤ (ControlBlock.mk (CBVariant.regular (some 0)) 1 1).weak_count) ∧
    (SharedPtr.assignCopy ⟨some 0, true⟩ ⟨some 0, true⟩ true
        ⟨CBVariant.regular (some 0), 1, 1⟩ =
      (⟨some 0, true⟩, ⟨CBVariant.regular (some 0), 1, 1⟩, noEv) ∧
     SharedPtr.selfAssignMove ⟨some 0, true⟩
        ⟨CBVariant.regular (some 0), 1, 1⟩ =
      (⟨some 0, true⟩, ⟨CBVariant.regular (some 0), 1, 1⟩, noEv) ∧
     WeakPtr.assignCopy ⟨some 0, true⟩ ⟨some 0, true⟩
        ⟨CBVariant.regular (some 0), 1, 1⟩ =
      (⟨some 0, true⟩, ⟨CBVariant.regular (some 0), 1, 1⟩, noEv) ∧
     WeakPtr.selfAssignMove ⟨some 0, true⟩
        ⟨CBVariant.regular (some 0), 1, 1⟩ =
      (⟨some 0, true⟩, ⟨CBVariant.regular (some 0), 1, 1⟩, noEv)) :=
  ⟨fun _ => le_refl 1,
   claim_C10 ⟨some 0, true⟩ ⟨some 0, true⟩
     ⟨CBVariant.regular (some 0), 1, 1⟩ (fun _ => le_refl 1)⟩

end SmartPointers
